import Mathlib

/-!
# Install-or-upgrade decision procedure of `main.go`

A shallow embedding of `main` and `InstallOrUpdate`.  The Helm SDK is an
external library: every SDK entry point the program calls is a field of the
structure `Helm` (a deterministic fake of the library), and `InstallOrUpdate`
returns, next to its Go result pair, the ordered list of SDK calls it made.
Go's `(value, error)` results are pairs whose second component is `none` for a
`nil` error; Go pointers that may be `nil` are `Option`s.
-/

namespace HelmSdk

/-! ## Data model -/

/-- Go `error` values: the sentinel `driver.ErrReleaseNotFound` the program
compares against, and any other error, identified by its message. -/
inductive GoError where
  | ErrReleaseNotFound
  | other (msg : String)
deriving DecidableEq, Repr

/-- The `context.Context` handed to the runners; the program only ever builds
`context.TODO()`. -/
inductive Context where
  | TODO
deriving DecidableEq, Repr

/-- Helm `cli.EnvSettings`; the program writes only its `KubeConfig` field. -/
structure EnvSettings where
  KubeConfig : String
  RepositoryConfig : String
  RepositoryCache : String
deriving DecidableEq, Repr

/-- Helm `action.Configuration`, identified by the arguments of the `Init`
call that set it up: REST client getter (from the settings), namespace and
storage driver name. -/
structure Configuration where
  getter : EnvSettings
  Namespace : String
  helmDriver : String
deriving DecidableEq, Repr

/-- Helm `action.ChartPathOptions`, embedded in the install and the upgrade
client. -/
structure ChartPathOptions where
  RepoURL : String
  Version : String
deriving DecidableEq, Repr

/-- Helm `action.History` client. -/
structure History where
  cfg : Configuration
  Max : Int
deriving DecidableEq, Repr

/-- Helm `action.Install` client (the fields the runners read). -/
structure Install extends ChartPathOptions where
  cfg : Configuration
  ReleaseName : String
  Namespace : String
deriving DecidableEq, Repr

/-- Helm `action.Upgrade` client (the fields the runners read). -/
structure Upgrade extends ChartPathOptions where
  cfg : Configuration
  Install : Bool
  Namespace : String
deriving DecidableEq, Repr

/-- Helm `chart.Chart`, as far as the program is concerned an opaque handle. -/
structure Chart where
  Name : String
  Version : String
deriving DecidableEq, Repr

/-- Helm `release.Release`: `Name` and the revision number `Version`. -/
structure Release where
  Name : String
  Version : Int
deriving DecidableEq, Repr

/-- The merged values map; the program only passes it on. -/
abbrev Vals := List (String × String)

/-- Helm `values.Options`; the program fills in `Values` only. -/
structure Options where
  Values : List String
deriving DecidableEq, Repr

/-- The provider set `getter.All(settings)`, identified by the settings it was
built from. -/
structure Providers where
  settings : EnvSettings
deriving DecidableEq, Repr

/-- Provider set of the settings (`getter.All`). -/
def All (settings : EnvSettings) : Providers := ⟨settings⟩

/-- One call into the SDK, with the arguments it was made with. -/
inductive Call where
  | Init (getter : EnvSettings) (ns : String) (helmDriver : String)
  | HistoryRun (client : History) (name : String)
  | LocateChart (opts : ChartPathOptions) (name : String) (settings : EnvSettings)
  | MergeValues (opts : Options) (p : Providers)
  | Load (path : String)
  | InstallRun (client : Install) (ctx : Context) (chrt : Option Chart) (vals : Vals)
  | UpgradeRun (client : Upgrade) (ctx : Context) (name : String) (chrt : Option Chart)
      (vals : Vals)
deriving DecidableEq, Repr

/-- The SDK the program runs against: what each entry point returns for given
arguments.  `New`, `NewHistory`, `NewInstall` and `NewUpgrade` are the SDK's
constructors; the others return Go `(value, error)` pairs. -/
structure Helm where
  New : EnvSettings
  Init : EnvSettings → String → String → Option GoError
  NewHistory : Configuration → History
  NewInstall : Configuration → Install
  NewUpgrade : Configuration → Upgrade
  HistoryRun : History → String → List Release × Option GoError
  LocateChart : ChartPathOptions → String → EnvSettings → String × Option GoError
  MergeValues : Options → Providers → Vals × Option GoError
  Load : String → Option Chart × Option GoError
  InstallRunWithContext : Install → Context → Option Chart → Vals →
    Option Release × Option GoError
  UpgradeRunWithContext : Upgrade → Context → String → Option Chart → Vals →
    Option Release × Option GoError

/-- What one run of `InstallOrUpdate` yields: the Go result pair
`(*release.Release, error)` and the SDK calls made, in order. -/
structure Outcome where
  release : Option Release
  err : Option GoError
  calls : List Call
deriving DecidableEq, Repr

/-! ## `InstallOrUpdate` (main.go, lines 66-148) -/

/-- The function `InstallOrUpdate` of main.go. -/
def InstallOrUpdate (w : Helm) (kubeconfigPath chartName releaseName repoURL version : String)
    (values : List String) : Outcome :=
  let ctx := Context.TODO
  let settings : EnvSettings := { w.New with KubeConfig := kubeconfigPath }
  let actionConfig : Configuration := ⟨settings, "default", "secret"⟩
  let t0 := [Call.Init settings "default" "secret"]
  match w.Init settings "default" "secret" with
  | some err => ⟨none, some err, t0⟩
  | none =>
    let historyClient : History := { w.NewHistory actionConfig with Max := 1 }
    let t1 := t0 ++ [Call.HistoryRun historyClient releaseName]
    if (w.HistoryRun historyClient releaseName).2 = some GoError.ErrReleaseNotFound then
      let installClient := w.NewInstall actionConfig
      let t2 := t1 ++ [Call.LocateChart installClient.toChartPathOptions chartName settings]
      match w.LocateChart installClient.toChartPathOptions chartName settings with
      | (_, some err) => ⟨none, some err, t2⟩
      | (cp, none) =>
        let p := All settings
        let valueOpts : Options := { Values := values }
        let t3 := t2 ++ [Call.MergeValues valueOpts p]
        match w.MergeValues valueOpts p with
        | (_, some err) => ⟨none, some err, t3⟩
        | (vals, none) =>
          let t4 := t3 ++ [Call.Load cp]
          match w.Load cp with
          | (_, some err) => ⟨none, some err, t4⟩
          | (chartRequested, none) =>
            let t5 := t4 ++ [Call.InstallRun installClient ctx chartRequested vals]
            match w.InstallRunWithContext installClient ctx chartRequested vals with
            | (_, some err) => ⟨none, some err, t5⟩
            | (release, none) => ⟨release, none, t5⟩
    else
      let upgradeClient : Upgrade :=
        { w.NewUpgrade actionConfig with
          Install := true, RepoURL := repoURL, Version := version, Namespace := "default" }
      let t2 := t1 ++ [Call.LocateChart upgradeClient.toChartPathOptions chartName settings]
      match w.LocateChart upgradeClient.toChartPathOptions chartName settings with
      | (_, some err) => ⟨none, some err, t2⟩
      | (cp, none) =>
        let p := All settings
        let valueOpts : Options := { Values := values }
        let t3 := t2 ++ [Call.MergeValues valueOpts p]
        match w.MergeValues valueOpts p with
        | (_, some err) => ⟨none, some err, t3⟩
        | (vals, none) =>
          let t4 := t3 ++ [Call.Load cp]
          match w.Load cp with
          | (_, some err) => ⟨none, some err, t4⟩
          | (none, none) =>
            ⟨none, some (GoError.other ("failed to load request chart " ++ chartName)), t4⟩
          | (some chartRequested, none) =>
            let t5 := t4 ++
              [Call.UpgradeRun upgradeClient ctx releaseName (some chartRequested) vals]
            match w.UpgradeRunWithContext upgradeClient ctx releaseName
                (some chartRequested) vals with
            | (_, some err) => ⟨none, some err, t5⟩
            | (release, none) => ⟨release, none, t5⟩

/-! ## Observations on the call list -/

/-- Is the call a run of the install client? -/
def Call.isInstall : Call → Bool
  | .InstallRun _ _ _ _ => true
  | _ => false

/-- Is the call a run of the upgrade client? -/
def Call.isUpgrade : Call → Bool
  | .UpgradeRun _ _ _ _ _ => true
  | _ => false

/-- Is the call a values merge? -/
def Call.isMerge : Call → Bool
  | .MergeValues _ _ => true
  | _ => false

/-- Is the call one of the chart resolver (locate or load)? -/
def Call.isResolve : Call → Bool
  | .LocateChart _ _ _ => true
  | .Load _ => true
  | _ => false

/-- Number of install runs in a call list. -/
def installCount (t : List Call) : Nat := t.countP Call.isInstall

/-- Number of upgrade runs in a call list. -/
def upgradeCount (t : List Call) : Nat := t.countP Call.isUpgrade

/-- Number of value merges in a call list. -/
def mergeCount (t : List Call) : Nat := t.countP Call.isMerge

/-- Number of chart resolver calls in a call list. -/
def resolveCount (t : List Call) : Nat := t.countP Call.isResolve

/-! ## The local variables of `InstallOrUpdate`, as functions of its inputs -/

/-- The `settings` of a run: `helmCli.New()` with `KubeConfig` overwritten. -/
def mkSettings (w : Helm) (kubeconfigPath : String) : EnvSettings :=
  { w.New with KubeConfig := kubeconfigPath }

/-- The `actionConfig` of a run, initialised for namespace `default` and the
`secret` storage driver. -/
def mkActionConfig (w : Helm) (kubeconfigPath : String) : Configuration :=
  ⟨mkSettings w kubeconfigPath, "default", "secret"⟩

/-- The `historyClient` of a run, capped at one entry. -/
def mkHistoryClient (w : Helm) (kubeconfigPath : String) : History :=
  { w.NewHistory (mkActionConfig w kubeconfigPath) with Max := 1 }

/-- The `installClient` of a run: the constructor's client, unmodified. -/
def mkInstallClient (w : Helm) (kubeconfigPath : String) : Install :=
  w.NewInstall (mkActionConfig w kubeconfigPath)

/-- The `upgradeClient` of a run, after the four assignments of lines 115-118. -/
def mkUpgradeClient (w : Helm) (kubeconfigPath repoURL version : String) : Upgrade :=
  { w.NewUpgrade (mkActionConfig w kubeconfigPath) with
    Install := true, RepoURL := repoURL, Version := version, Namespace := "default" }

/-! ## Sample SDK behaviours -/

/-- An SDK in which everything succeeds: constructors return zero-valued
clients, the history lookup answers with `hist`, a chart is located at
`repo/name-version`, and the runners produce a release named as the runner was
told, at revision `rev`. -/
def sampleHelm (hist : List Release × Option GoError) (rev : Int) : Helm where
  New := ⟨"", "repositories.yaml", "cache"⟩
  Init := fun _ _ _ => none
  NewHistory := fun cfg => ⟨cfg, 256⟩
  NewInstall := fun cfg => { cfg := cfg, RepoURL := "", Version := "", ReleaseName := "",
                             Namespace := "" }
  NewUpgrade := fun cfg => { cfg := cfg, RepoURL := "", Version := "", Install := false,
                             Namespace := "" }
  HistoryRun := fun _ _ => hist
  LocateChart := fun o name _ => (o.RepoURL ++ "/" ++ name ++ "-" ++ o.Version, none)
  MergeValues := fun o _ => (o.Values.map (fun v => (v, v)), none)
  Load := fun path => (some ⟨path, "1"⟩, none)
  InstallRunWithContext := fun c _ _ _ => (some ⟨c.ReleaseName, rev⟩, none)
  UpgradeRunWithContext := fun _ _ name _ _ => (some ⟨name, rev⟩, none)

/-- As `sampleHelm`, but the chart loader returns a `nil` chart and no error. -/
def nilChartHelm (hist : List Release × Option GoError) (rev : Int) : Helm :=
  { sampleHelm hist rev with Load := fun _ => (none, none) }

/-- As `sampleHelm`, but locating the chart fails. -/
def locateFailHelm (hist : List Release × Option GoError) (rev : Int) : Helm :=
  { sampleHelm hist rev with
    LocateChart := fun _ _ _ => ("", some (GoError.other "chart not found")) }

/-- As `sampleHelm`, but loading the located chart fails. -/
def loadFailHelm (hist : List Release × Option GoError) (rev : Int) : Helm :=
  { sampleHelm hist rev with
    Load := fun _ => (none, some (GoError.other "no such file")) }

/-- As `sampleHelm`, but merging the values fails. -/
def mergeFailHelm (hist : List Release × Option GoError) (rev : Int) : Helm :=
  { sampleHelm hist rev with
    MergeValues := fun _ _ => ([], some (GoError.other "failed parsing --set data")) }

/-- History answer of a release that was never installed. -/
def absent : List Release × Option GoError := ([], some GoError.ErrReleaseNotFound)

/-- History answer of a release `name` whose latest revision is `rev`. -/
def present (name : String) (rev : Int) : List Release × Option GoError :=
  ([⟨name, rev⟩], none)

/-! ## Value parsing in `main` (main.go, lines 43-46) -/

/-- Go `unicode.IsSpace`: the Latin-1 space characters tab, line feed,
vertical tab, form feed, carriage return, space, NEL and NBSP, and above
Latin-1 the code points with the Unicode property `White_Space`. -/
def IsSpace (r : Char) : Bool :=
  if r.toNat ≤ 0xFF then
    r.toNat = 0x09 || r.toNat = 0x0A || r.toNat = 0x0B || r.toNat = 0x0C || r.toNat = 0x0D ||
      r.toNat = 0x20 || r.toNat = 0x85 || r.toNat = 0xA0
  else
    r.toNat = 0x1680 || (0x2000 ≤ r.toNat && r.toNat ≤ 0x200A) || r.toNat = 0x2028 ||
      r.toNat = 0x2029 || r.toNat = 0x202F || r.toNat = 0x205F || r.toNat = 0x3000

/-- The loop of Go `strings.genSplit` for a one-character separator, run at
most `n` times: cut `s` at the first separator (`Index`), keep the part before
it, go on with the part after it; what is left is the last element. -/
def genSplit : Nat → List Char → Char → List (List Char)
  | 0, s, _ => [s]
  | n + 1, s, sep =>
    let m := s.indexOf sep
    if m < s.length then s.take m :: genSplit n (s.drop (m + 1)) sep else [s]

/-- Go `strings.Split(s, sep)` for a one-character separator: `genSplit` with
`Count(s, sep) + 1` result slots, that is `Count(s, sep)` cuts. -/
def Split (s : String) (sep : Char) : List String :=
  (genSplit (s.data.count sep) s.data sep).map String.mk

/-- Go `strings.TrimSpace` on the characters of a string: drop the leading,
then the trailing characters that satisfy `IsSpace`. -/
def trimSpaceChars (s : List Char) : List Char :=
  ((s.dropWhile IsSpace).reverse.dropWhile IsSpace).reverse

/-- Go `strings.TrimSpace`. -/
def TrimSpace (s : String) : String := ⟨trimSpaceChars s.data⟩

/-- The slice `values` that `main` builds from the `values` flag: split at
the commas, then trim every element in place. -/
def main.values (commaValues : String) : List String :=
  (Split commaValues ',').map TrimSpace

/-- The function `main` of main.go, from the parsed flags on (logging left
out). -/
def main (w : Helm) (kubeconfigPath chartName releaseName repoURL version commaValues : String) :
    Outcome :=
  InstallOrUpdate w kubeconfigPath chartName releaseName repoURL version
    (main.values commaValues)

/-! ## Lemmas on splitting and trimming -/

/-- Cutting a list at the first occurrence of `sep`: the part before it holds
no `sep`, and the list is the two parts around that occurrence. -/
theorem take_indexOf_append (sep : Char) (s : List Char) (h : sep ∈ s) :
    s = s.take (s.indexOf sep) ++ sep :: s.drop (s.indexOf sep + 1) ∧
      sep ∉ s.take (s.indexOf sep) := by
  induction s with
  | nil => simp at h
  | cons c cs ih =>
    by_cases hc : c = sep
    · subst hc
      simp
    · have hmem : sep ∈ cs := by
        rcases List.mem_cons.1 h with h | h
        · exact absurd h.symm hc
        · exact h
      obtain ⟨h1, h2⟩ := ih hmem
      rw [List.indexOf_cons_ne _ hc]
      refine ⟨?_, ?_⟩
      · simp only [List.take_succ_cons, List.drop_succ_cons, List.cons_append]
        exact congrArg _ h1
      · simp only [List.take_succ_cons, List.mem_cons, not_or]
        exact ⟨fun h => hc h.symm, h2⟩

/-- With as many cuts as `s` has separators, `genSplit` returns one segment
more than there are separators, the segments joined by the separator give `s`,
and no segment holds the separator. -/
theorem genSplit_spec (sep : Char) (n : Nat) :
    ∀ s : List Char, s.count sep = n →
      (genSplit n s sep).length = n + 1 ∧
      List.intercalate [sep] (genSplit n s sep) = s ∧
      ∀ seg ∈ genSplit n s sep, sep ∉ seg := by
  induction n with
  | zero =>
    intro s hs
    have : sep ∉ s := List.count_eq_zero.1 hs
    simp [genSplit, List.intercalate, this]
  | succ n ih =>
    intro s hs
    have hmem : sep ∈ s := List.count_pos_iff.1 (by omega)
    obtain ⟨h1, h2⟩ := take_indexOf_append sep s hmem
    have hlt : s.indexOf sep < s.length := List.indexOf_lt_length.2 hmem
    have hcnt : (s.drop (s.indexOf sep + 1)).count sep = n := by
      have := congrArg (List.count sep) h1
      rw [List.count_append, List.count_cons_self, List.count_eq_zero.2 h2] at this
      omega
    obtain ⟨i1, i2, i3⟩ := ih _ hcnt
    simp only [genSplit, hlt, if_true]
    refine ⟨by simp [i1], ?_, ?_⟩
    · cases hg : genSplit n (s.drop (s.indexOf sep + 1)) sep with
      | nil => simp [hg] at i1
      | cons x xs =>
        rw [hg] at i2
        have : List.intercalate [sep] (s.take (s.indexOf sep) :: x :: xs) =
            s.take (s.indexOf sep) ++ sep :: List.intercalate [sep] (x :: xs) := by
          simp [List.intercalate, List.intersperse]
        rw [this, i2]
        exact h1.symm
    · intro seg hseg
      rcases List.mem_cons.1 hseg with h | h
      · rw [h]; exact h2
      · exact i3 seg h

/-- The first character left by `dropWhile p` does not satisfy `p`. -/
theorem head?_dropWhile_false (p : Char → Bool) (l : List Char) (c : Char)
    (h : (l.dropWhile p).head? = some c) : p c = false := by
  have := List.head?_dropWhile_not p l
  rw [h] at this
  exact this

/-- Trimming removes a run of white space at each end and leaves a string that
neither starts nor ends with white space. -/
theorem trimSpaceChars_spec (s : List Char) :
    (∃ l r, s = l ++ trimSpaceChars s ++ r ∧ (∀ c ∈ l, IsSpace c = true) ∧
      (∀ c ∈ r, IsSpace c = true)) ∧
    (∀ c, (trimSpaceChars s).head? = some c → IsSpace c = false) ∧
    (∀ c, (trimSpaceChars s).getLast? = some c → IsSpace c = false) := by
  have hd : s.dropWhile IsSpace =
      trimSpaceChars s ++ ((s.dropWhile IsSpace).reverse.takeWhile IsSpace).reverse := by
    unfold trimSpaceChars
    rw [← List.reverse_append, List.takeWhile_append_dropWhile, List.reverse_reverse]
  refine ⟨⟨s.takeWhile IsSpace, ((s.dropWhile IsSpace).reverse.takeWhile IsSpace).reverse,
    ?_, ?_, ?_⟩, ?_, ?_⟩
  · rw [List.append_assoc, ← hd, List.takeWhile_append_dropWhile]
  · intro c hc
    exact List.mem_takeWhile_imp hc
  · intro c hc
    exact List.mem_takeWhile_imp (List.mem_reverse.1 hc)
  · intro c hc
    apply head?_dropWhile_false IsSpace s c
    rw [hd, List.head?_append, hc]
    rfl
  · intro c hc
    apply head?_dropWhile_false IsSpace (s.dropWhile IsSpace).reverse c
    unfold trimSpaceChars at hc
    rwa [List.getLast?_reverse] at hc

/-! ## Theorems on `InstallOrUpdate` -/

/-- C1: evaluation at a history lookup that answers not-found and a chart
loader that returns a `nil` chart and no error, so that loading the chart did
not succeed.  No upgrade run is made, but the install client is run once, where
the claim has it run zero times. -/
theorem install_counted_on_nil_chart :
    (nilChartHelm absent 1).Init (mkSettings (nilChartHelm absent 1) "") "default" "secret"
      = none ∧
    ((nilChartHelm absent 1).HistoryRun (mkHistoryClient (nilChartHelm absent 1) "") "demo").2 =
      some GoError.ErrReleaseNotFound ∧
    (nilChartHelm absent 1).Load
        ((nilChartHelm absent 1).LocateChart
          (mkInstallClient (nilChartHelm absent 1) "").toChartPathOptions "widgets"
          (mkSettings (nilChartHelm absent 1) "")).1 = (none, none) ∧
    upgradeCount
        (InstallOrUpdate (nilChartHelm absent 1) "" "widgets" "demo" "https://r" "" ["a=1"]).calls
      = 0 ∧
    installCount
        (InstallOrUpdate (nilChartHelm absent 1) "" "widgets" "demo" "https://r" "" ["a=1"]).calls
      = 1 := by
  decide

/-- Install branch, apart from the `nil` chart: when the history lookup answers
with the not-found signal, no upgrade run is made; the install client is run
exactly once if locating the chart, merging the values and loading the chart
return no error and the chart is not `nil`; and it is not run at all if one of
the three returns an error. -/
theorem install_branch_calls (w : Helm)
    (kubeconfigPath chartName releaseName repoURL version : String) (values : List String)
    (hInit : w.Init (mkSettings w kubeconfigPath) "default" "secret" = none)
    (hHist : (w.HistoryRun (mkHistoryClient w kubeconfigPath) releaseName).2 =
      some GoError.ErrReleaseNotFound) :
    upgradeCount
        (InstallOrUpdate w kubeconfigPath chartName releaseName repoURL version values).calls
      = 0 ∧
    ((w.LocateChart (mkInstallClient w kubeconfigPath).toChartPathOptions chartName
          (mkSettings w kubeconfigPath)).2 = none ∧
        (w.MergeValues ⟨values⟩ (All (mkSettings w kubeconfigPath))).2 = none ∧
        (w.Load (w.LocateChart (mkInstallClient w kubeconfigPath).toChartPathOptions
          chartName (mkSettings w kubeconfigPath)).1).2 = none ∧
        (w.Load (w.LocateChart (mkInstallClient w kubeconfigPath).toChartPathOptions
          chartName (mkSettings w kubeconfigPath)).1).1 ≠ none →
      installCount
        (InstallOrUpdate w kubeconfigPath chartName releaseName repoURL version values).calls
        = 1) ∧
    (¬ ((w.LocateChart (mkInstallClient w kubeconfigPath).toChartPathOptions chartName
          (mkSettings w kubeconfigPath)).2 = none ∧
        (w.MergeValues ⟨values⟩ (All (mkSettings w kubeconfigPath))).2 = none ∧
        (w.Load (w.LocateChart (mkInstallClient w kubeconfigPath).toChartPathOptions
          chartName (mkSettings w kubeconfigPath)).1).2 = none) →
      installCount
        (InstallOrUpdate w kubeconfigPath chartName releaseName repoURL version values).calls
        = 0) := by
  unfold InstallOrUpdate
  simp only [mkSettings, mkHistoryClient, mkActionConfig, mkInstallClient] at *
  simp only [hInit, hHist, if_true]
  repeat' split
  all_goals
    simp_all [installCount, upgradeCount, Call.isInstall, Call.isUpgrade, List.countP_cons,
      List.countP_append]

/-- Install branch at release `demo` of chart `widgets`, never installed
before: one install run and no upgrade run. -/
theorem install_branch_calls_witness :
    (sampleHelm absent 1).Init (mkSettings (sampleHelm absent 1) "") "default" "secret" = none ∧
    ((sampleHelm absent 1).HistoryRun (mkHistoryClient (sampleHelm absent 1) "") "demo").2 =
      some GoError.ErrReleaseNotFound ∧
    upgradeCount
        (InstallOrUpdate (sampleHelm absent 1) "" "widgets" "demo" "https://r" "" ["a=1"]).calls
      = 0 ∧
    installCount
        (InstallOrUpdate (sampleHelm absent 1) "" "widgets" "demo" "https://r" "" ["a=1"]).calls
      = 1 :=
  ⟨rfl, rfl,
    (install_branch_calls (sampleHelm absent 1) "" "widgets" "demo" "https://r" ""
      ["a=1"] rfl rfl).1,
    (install_branch_calls (sampleHelm absent 1) "" "widgets" "demo" "https://r" ""
      ["a=1"] rfl rfl).2.1 ⟨rfl, rfl, rfl, by decide⟩⟩

/-- C3: evaluation at a history lookup that fails with a cancellation error.
The error is dropped: the chart is located and loaded, the upgrade client is
run, and the run ends with a release record and no error. -/
theorem history_error_falls_through_to_upgrade :
    ((sampleHelm ([], some (GoError.other "context canceled")) 4).HistoryRun
        (mkHistoryClient (sampleHelm ([], some (GoError.other "context canceled")) 4) "")
        "demo").2 = some (GoError.other "context canceled") ∧
    (InstallOrUpdate (sampleHelm ([], some (GoError.other "context canceled")) 4) ""
        "widgets" "demo" "https://r" "2.0.0" ["a=1"]).err = none ∧
    (InstallOrUpdate (sampleHelm ([], some (GoError.other "context canceled")) 4) ""
        "widgets" "demo" "https://r" "2.0.0" ["a=1"]).release = some ⟨"demo", 4⟩ ∧
    resolveCount (InstallOrUpdate (sampleHelm ([], some (GoError.other "context canceled")) 4)
        "" "widgets" "demo" "https://r" "2.0.0" ["a=1"]).calls = 2 ∧
    upgradeCount (InstallOrUpdate (sampleHelm ([], some (GoError.other "context canceled")) 4)
        "" "widgets" "demo" "https://r" "2.0.0" ["a=1"]).calls = 1 := by
  decide

/-- C4, as stated, fails: the chart loader returns an error, and by then the
values have been merged. -/
theorem merge_precedes_load_failure :
    ((loadFailHelm absent 1).Load "/widgets-").2 = some (GoError.other "no such file") ∧
    Call.Load "/widgets-" ∈
      (InstallOrUpdate (loadFailHelm absent 1) "" "widgets" "demo" "https://r" "" ["a=1"]).calls ∧
    (InstallOrUpdate (loadFailHelm absent 1) "" "widgets" "demo" "https://r" "" ["a=1"]).err =
      some (GoError.other "no such file") ∧
    mergeCount
      (InstallOrUpdate (loadFailHelm absent 1) "" "widgets" "demo" "https://r" "" ["a=1"]).calls
      = 1 := by
  decide

/-- C4, amended: in either branch, if the `LocateChart` call made returns an
error, that error is returned with no release, no merge, install or upgrade
call has been made, and the failing call is the last one; if the `Load` call
made returns an error, that error is returned with no release and no install
or upgrade call has been made, the values having been merged before: the merge
is the one call between the successful `LocateChart` and the `Load`, it
returned no error, and the `Load` is the last call. -/
theorem resolver_failure_stops_run (w : Helm)
    (kubeconfigPath chartName releaseName repoURL version : String) (values : List String)
    (out : Outcome)
    (hOut : InstallOrUpdate w kubeconfigPath chartName releaseName repoURL version values = out) :
    (∀ opts name settings cp e, Call.LocateChart opts name settings ∈ out.calls →
      w.LocateChart opts name settings = (cp, some e) →
      out.release = none ∧ out.err = some e ∧ mergeCount out.calls = 0 ∧
        installCount out.calls = 0 ∧ upgradeCount out.calls = 0 ∧
        out.calls =
          [Call.Init (mkSettings w kubeconfigPath) "default" "secret",
            Call.HistoryRun (mkHistoryClient w kubeconfigPath) releaseName,
            Call.LocateChart opts name settings]) ∧
    (∀ path chrt e, Call.Load path ∈ out.calls → w.Load path = (chrt, some e) →
      out.release = none ∧ out.err = some e ∧ mergeCount out.calls = 1 ∧
        installCount out.calls = 0 ∧ upgradeCount out.calls = 0 ∧
        (w.MergeValues ⟨values⟩ (All (mkSettings w kubeconfigPath))).2 = none ∧
        ∃ opts,
          w.LocateChart opts chartName (mkSettings w kubeconfigPath) = (path, none) ∧
          out.calls =
            [Call.Init (mkSettings w kubeconfigPath) "default" "secret",
              Call.HistoryRun (mkHistoryClient w kubeconfigPath) releaseName,
              Call.LocateChart opts chartName (mkSettings w kubeconfigPath),
              Call.MergeValues ⟨values⟩ (All (mkSettings w kubeconfigPath)),
              Call.Load path]) := by
  subst hOut
  unfold InstallOrUpdate
  simp only [mkSettings, mkHistoryClient, mkActionConfig]
  repeat' split
  all_goals
    simp_all [installCount, upgradeCount, mergeCount, Call.isInstall, Call.isUpgrade,
      Call.isMerge, List.countP_cons, List.countP_append]

/-- C5: evaluation at release `demo` of chart `widgets` with no history.  The
install client is run with the constructor's `ReleaseName` (empty), not with
`demo`, so a runner that names the release as it was told yields a record that
is not named `demo`; the record returned is the one the install run produced. -/
theorem install_run_without_release_name :
    List.filter Call.isInstall
        (InstallOrUpdate (sampleHelm absent 1) "" "widgets" "demo" "https://r" "" ["a=1"]).calls =
      [Call.InstallRun (mkInstallClient (sampleHelm absent 1) "") Context.TODO
        (some ⟨"/widgets-", "1"⟩) [("a=1", "a=1")]] ∧
    (mkInstallClient (sampleHelm absent 1) "").ReleaseName = "" ∧
    (InstallOrUpdate (sampleHelm absent 1) "" "widgets" "demo" "https://r" "" ["a=1"]).err
      = none ∧
    (InstallOrUpdate (sampleHelm absent 1) "" "widgets" "demo" "https://r" "" ["a=1"]).release
      = some ⟨"", 1⟩ ∧
    (InstallOrUpdate (sampleHelm absent 1) "" "widgets" "demo" "https://r" "" ["a=1"]).release
      = ((sampleHelm absent 1).InstallRunWithContext (mkInstallClient (sampleHelm absent 1) "")
          Context.TODO (some ⟨"/widgets-", "1"⟩) [("a=1", "a=1")]).1 := by
  decide

/-- C6: when the history lookup answers with the not-found signal, two runs
that differ only in `repoURL` and `version` make the same SDK calls with the
same arguments and return the same result, and the chart is located with the
install constructor's own chart path options, the chart name and the settings. -/
theorem install_branch_ignores_version_and_repo (w : Helm)
    (kubeconfigPath chartName releaseName repoURL version repoURL2 version2 : String)
    (values : List String)
    (hHist : (w.HistoryRun (mkHistoryClient w kubeconfigPath) releaseName).2 =
      some GoError.ErrReleaseNotFound) :
    InstallOrUpdate w kubeconfigPath chartName releaseName repoURL version values =
      InstallOrUpdate w kubeconfigPath chartName releaseName repoURL2 version2 values ∧
    ∀ opts name settings,
      Call.LocateChart opts name settings ∈
        (InstallOrUpdate w kubeconfigPath chartName releaseName repoURL version values).calls →
      opts = (w.NewInstall (mkActionConfig w kubeconfigPath)).toChartPathOptions ∧
        name = chartName ∧ settings = mkSettings w kubeconfigPath := by
  unfold InstallOrUpdate
  simp only [mkSettings, mkHistoryClient, mkActionConfig] at *
  simp only [hHist, if_true]
  refine ⟨trivial, ?_⟩
  repeat' split
  all_goals simp_all

/-- Witness of C6: installing `demo` with and without a pinned version. -/
theorem install_branch_ignores_version_and_repo_witness :
    ((sampleHelm absent 1).HistoryRun (mkHistoryClient (sampleHelm absent 1) "") "demo").2 =
      some GoError.ErrReleaseNotFound ∧
    InstallOrUpdate (sampleHelm absent 1) "" "widgets" "demo" "https://r" "2.0.0" ["a=1"] =
      InstallOrUpdate (sampleHelm absent 1) "" "widgets" "demo" "" "" ["a=1"] ∧
    Call.LocateChart ⟨"", ""⟩ "widgets" (mkSettings (sampleHelm absent 1) "") ∈
      (InstallOrUpdate (sampleHelm absent 1) "" "widgets" "demo" "https://r" "2.0.0"
        ["a=1"]).calls :=
  ⟨rfl,
    (install_branch_ignores_version_and_repo (sampleHelm absent 1) "" "widgets" "demo"
      "https://r" "2.0.0" "" "" ["a=1"] rfl).1,
    by decide⟩

/-- C7: when the history lookup returns no error, the one `LocateChart` call
is made with the request's `repoURL` and `version` as chart path options and
with the request's chart name; and the upgrade runs made are: none, or, if
locating, merging and loading return no error and the chart is not `nil`, the
single run for `releaseName` with the chart loaded from the located path and
the values merged from `values`. -/
theorem upgrade_branch_arguments (w : Helm)
    (kubeconfigPath chartName releaseName repoURL version : String) (values : List String)
    (out : Outcome)
    (hOut : InstallOrUpdate w kubeconfigPath chartName releaseName repoURL version values = out)
    (hInit : w.Init (mkSettings w kubeconfigPath) "default" "secret" = none)
    (hHist : (w.HistoryRun (mkHistoryClient w kubeconfigPath) releaseName).2 = none) :
    (mkUpgradeClient w kubeconfigPath repoURL version).RepoURL = repoURL ∧
    (mkUpgradeClient w kubeconfigPath repoURL version).Version = version ∧
    (∀ opts name settings, Call.LocateChart opts name settings ∈ out.calls ↔
      opts = (mkUpgradeClient w kubeconfigPath repoURL version).toChartPathOptions ∧
        name = chartName ∧ settings = mkSettings w kubeconfigPath) ∧
    out.calls.filter Call.isUpgrade =
      if (w.LocateChart (mkUpgradeClient w kubeconfigPath repoURL version).toChartPathOptions
            chartName (mkSettings w kubeconfigPath)).2 = none ∧
          (w.MergeValues ⟨values⟩ (All (mkSettings w kubeconfigPath))).2 = none ∧
          (w.Load (w.LocateChart
            (mkUpgradeClient w kubeconfigPath repoURL version).toChartPathOptions
            chartName (mkSettings w kubeconfigPath)).1).2 = none ∧
          (w.Load (w.LocateChart
            (mkUpgradeClient w kubeconfigPath repoURL version).toChartPathOptions
            chartName (mkSettings w kubeconfigPath)).1).1 ≠ none
      then [Call.UpgradeRun (mkUpgradeClient w kubeconfigPath repoURL version) Context.TODO
              releaseName
              (w.Load (w.LocateChart
                (mkUpgradeClient w kubeconfigPath repoURL version).toChartPathOptions
                chartName (mkSettings w kubeconfigPath)).1).1
              (w.MergeValues ⟨values⟩ (All (mkSettings w kubeconfigPath))).1]
      else [] := by
  subst hOut
  unfold InstallOrUpdate
  simp only [mkSettings, mkHistoryClient, mkActionConfig, mkUpgradeClient] at *
  simp only [hInit, hHist]
  refine ⟨trivial, trivial, ?_⟩
  repeat' split
  all_goals simp_all [Call.isUpgrade, List.filter_cons, List.filter_append]

/-- Witness of C7: release `demo` at revision 3, upgraded with version `2.0.0`
pinned: one upgrade run, for `demo`, with the chart located for `2.0.0`. -/
theorem upgrade_branch_arguments_witness :
    (sampleHelm (present "demo" 3) 4).Init
        (mkSettings (sampleHelm (present "demo" 3) 4) "") "default" "secret" = none ∧
    ((sampleHelm (present "demo" 3) 4).HistoryRun
        (mkHistoryClient (sampleHelm (present "demo" 3) 4) "") "demo").2 = none ∧
    (InstallOrUpdate (sampleHelm (present "demo" 3) 4) "" "widgets" "demo" "https://r"
        "2.0.0" ["a=1"]).calls.filter Call.isUpgrade =
      [Call.UpgradeRun (mkUpgradeClient (sampleHelm (present "demo" 3) 4) "" "https://r" "2.0.0")
        Context.TODO "demo" (some ⟨"https://r/widgets-2.0.0", "1"⟩) [("a=1", "a=1")]] :=
  ⟨rfl, rfl,
    (upgrade_branch_arguments (sampleHelm (present "demo" 3) 4) "" "widgets" "demo"
      "https://r" "2.0.0" ["a=1"] _ rfl rfl rfl).2.2.2⟩

/-- C8: evaluation at a history lookup that answers not-found and a chart
loader that returns a `nil` chart and no error.  The install client is run, on
the `nil` chart, and the run ends without an error. -/
theorem install_run_on_nil_chart :
    ((nilChartHelm absent 1).Load "/widgets-") = (none, none) ∧
    List.filter Call.isInstall
        (InstallOrUpdate (nilChartHelm absent 1) "" "widgets" "demo" "https://r" "" ["a=1"]).calls =
      [Call.InstallRun (mkInstallClient (nilChartHelm absent 1) "") Context.TODO none
        [("a=1", "a=1")]] ∧
    (InstallOrUpdate (nilChartHelm absent 1) "" "widgets" "demo" "https://r" "" ["a=1"]).err
      = none := by
  decide

/-- C9: in either branch, if the `MergeValues` call made returns an error,
that error is returned with no release record, and neither the install nor the
upgrade client has been run. -/
theorem merge_failure_stops_run (w : Helm)
    (kubeconfigPath chartName releaseName repoURL version : String) (values : List String)
    (out : Outcome)
    (hOut : InstallOrUpdate w kubeconfigPath chartName releaseName repoURL version values = out)
    (opts : Options) (p : Providers) (vals : Vals) (e : GoError)
    (hCall : Call.MergeValues opts p ∈ out.calls)
    (hFail : w.MergeValues opts p = (vals, some e)) :
    out.release = none ∧ out.err = some e ∧
      installCount out.calls = 0 ∧ upgradeCount out.calls = 0 := by
  subst hOut
  unfold InstallOrUpdate at hCall ⊢
  simp only at hCall ⊢
  repeat' split
  all_goals
    simp_all [installCount, upgradeCount, Call.isInstall, Call.isUpgrade, List.countP_cons,
      List.countP_append]

/-- Witness of C9: a failing merge on the install branch and on the upgrade
branch. -/
theorem merge_failure_stops_run_witness :
    (Call.MergeValues ⟨["a"]⟩ (All (mkSettings (mergeFailHelm absent 1) "")) ∈
        (InstallOrUpdate (mergeFailHelm absent 1) "" "widgets" "demo" "https://r" ""
          ["a"]).calls ∧
      (InstallOrUpdate (mergeFailHelm absent 1) "" "widgets" "demo" "https://r" ""
          ["a"]).release = none ∧
      (InstallOrUpdate (mergeFailHelm absent 1) "" "widgets" "demo" "https://r" ""
          ["a"]).err = some (GoError.other "failed parsing --set data") ∧
      installCount (InstallOrUpdate (mergeFailHelm absent 1) "" "widgets" "demo" "https://r" ""
          ["a"]).calls = 0 ∧
      upgradeCount (InstallOrUpdate (mergeFailHelm absent 1) "" "widgets" "demo" "https://r" ""
          ["a"]).calls = 0) ∧
    (Call.MergeValues ⟨["a"]⟩ (All (mkSettings (mergeFailHelm (present "demo" 3) 4) "")) ∈
        (InstallOrUpdate (mergeFailHelm (present "demo" 3) 4) "" "widgets" "demo" "https://r"
          "" ["a"]).calls ∧
      (InstallOrUpdate (mergeFailHelm (present "demo" 3) 4) "" "widgets" "demo" "https://r" ""
          ["a"]).release = none ∧
      (InstallOrUpdate (mergeFailHelm (present "demo" 3) 4) "" "widgets" "demo" "https://r" ""
          ["a"]).err = some (GoError.other "failed parsing --set data") ∧
      installCount (InstallOrUpdate (mergeFailHelm (present "demo" 3) 4) "" "widgets" "demo"
          "https://r" "" ["a"]).calls = 0 ∧
      upgradeCount (InstallOrUpdate (mergeFailHelm (present "demo" 3) 4) "" "widgets" "demo"
          "https://r" "" ["a"]).calls = 0) :=
  ⟨⟨by decide,
      merge_failure_stops_run (mergeFailHelm absent 1) "" "widgets" "demo" "https://r" ""
        ["a"] _ rfl ⟨["a"]⟩ (All (mkSettings (mergeFailHelm absent 1) "")) [] _
        (by decide) rfl⟩,
    ⟨by decide,
      merge_failure_stops_run (mergeFailHelm (present "demo" 3) 4) "" "widgets" "demo"
        "https://r" "" ["a"] _ rfl ⟨["a"]⟩
        (All (mkSettings (mergeFailHelm (present "demo" 3) 4) "")) [] _ (by decide) rfl⟩⟩

/-- Witness of amended C4: a failing `LocateChart` on the upgrade branch and a
failing `Load` on the install branch. -/
theorem resolver_failure_stops_run_witness :
    (Call.LocateChart ⟨"https://r", ""⟩ "widgets"
          (mkSettings (locateFailHelm (present "demo" 3) 4) "") ∈
        (InstallOrUpdate (locateFailHelm (present "demo" 3) 4) "" "widgets" "demo" "https://r"
          "" ["a=1"]).calls ∧
      (InstallOrUpdate (locateFailHelm (present "demo" 3) 4) "" "widgets" "demo" "https://r" ""
          ["a=1"]).release = none ∧
      (InstallOrUpdate (locateFailHelm (present "demo" 3) 4) "" "widgets" "demo" "https://r" ""
          ["a=1"]).err = some (GoError.other "chart not found") ∧
      mergeCount (InstallOrUpdate (locateFailHelm (present "demo" 3) 4) "" "widgets" "demo"
          "https://r" "" ["a=1"]).calls = 0 ∧
      installCount (InstallOrUpdate (locateFailHelm (present "demo" 3) 4) "" "widgets" "demo"
          "https://r" "" ["a=1"]).calls = 0 ∧
      upgradeCount (InstallOrUpdate (locateFailHelm (present "demo" 3) 4) "" "widgets" "demo"
          "https://r" "" ["a=1"]).calls = 0 ∧
      (InstallOrUpdate (locateFailHelm (present "demo" 3) 4) "" "widgets" "demo" "https://r" ""
          ["a=1"]).calls =
        [Call.Init (mkSettings (locateFailHelm (present "demo" 3) 4) "") "default" "secret",
          Call.HistoryRun (mkHistoryClient (locateFailHelm (present "demo" 3) 4) "") "demo",
          Call.LocateChart ⟨"https://r", ""⟩ "widgets"
            (mkSettings (locateFailHelm (present "demo" 3) 4) "")]) ∧
    (Call.Load "/widgets-" ∈
        (InstallOrUpdate (loadFailHelm absent 1) "" "widgets" "demo" "https://r" ""
          ["a=1"]).calls ∧
      (InstallOrUpdate (loadFailHelm absent 1) "" "widgets" "demo" "https://r" ""
          ["a=1"]).release = none ∧
      (InstallOrUpdate (loadFailHelm absent 1) "" "widgets" "demo" "https://r" ""
          ["a=1"]).err = some (GoError.other "no such file") ∧
      mergeCount (InstallOrUpdate (loadFailHelm absent 1) "" "widgets" "demo" "https://r" ""
          ["a=1"]).calls = 1 ∧
      installCount (InstallOrUpdate (loadFailHelm absent 1) "" "widgets" "demo" "https://r" ""
          ["a=1"]).calls = 0 ∧
      upgradeCount (InstallOrUpdate (loadFailHelm absent 1) "" "widgets" "demo" "https://r" ""
          ["a=1"]).calls = 0 ∧
      ((loadFailHelm absent 1).MergeValues ⟨["a=1"]⟩
          (All (mkSettings (loadFailHelm absent 1) ""))).2 = none ∧
      ∃ opts,
        (loadFailHelm absent 1).LocateChart opts "widgets"
            (mkSettings (loadFailHelm absent 1) "") = ("/widgets-", none) ∧
        (InstallOrUpdate (loadFailHelm absent 1) "" "widgets" "demo" "https://r" ""
            ["a=1"]).calls =
          [Call.Init (mkSettings (loadFailHelm absent 1) "") "default" "secret",
            Call.HistoryRun (mkHistoryClient (loadFailHelm absent 1) "") "demo",
            Call.LocateChart opts "widgets" (mkSettings (loadFailHelm absent 1) ""),
            Call.MergeValues ⟨["a=1"]⟩ (All (mkSettings (loadFailHelm absent 1) "")),
            Call.Load "/widgets-"]) :=
  ⟨⟨by decide,
      (resolver_failure_stops_run (locateFailHelm (present "demo" 3) 4) "" "widgets" "demo"
        "https://r" "" ["a=1"] _ rfl).1 ⟨"https://r", ""⟩ "widgets"
        (mkSettings (locateFailHelm (present "demo" 3) 4) "") "" _ (by decide) rfl⟩,
    ⟨by decide,
      (resolver_failure_stops_run (loadFailHelm absent 1) "" "widgets" "demo" "https://r" ""
        ["a=1"] _ rfl).2 "/widgets-" none _ (by decide) rfl⟩⟩

/-- The upgrade branch guards against a `nil` chart: when the history lookup
does not answer not-found and locating, merging and loading return no error
but the chart is `nil`, the run ends with the error `failed to load request
chart` and neither client has been run. -/
theorem upgrade_branch_nil_chart (w : Helm)
    (kubeconfigPath chartName releaseName repoURL version : String) (values : List String)
    (cp : String) (vals : Vals)
    (hInit : w.Init (mkSettings w kubeconfigPath) "default" "secret" = none)
    (hHist : (w.HistoryRun (mkHistoryClient w kubeconfigPath) releaseName).2 ≠
      some GoError.ErrReleaseNotFound)
    (hLoc : w.LocateChart (mkUpgradeClient w kubeconfigPath repoURL version).toChartPathOptions
      chartName (mkSettings w kubeconfigPath) = (cp, none))
    (hMerge : w.MergeValues ⟨values⟩ (All (mkSettings w kubeconfigPath)) = (vals, none))
    (hLoad : w.Load cp = (none, none)) :
    (InstallOrUpdate w kubeconfigPath chartName releaseName repoURL version values).release
      = none ∧
    (InstallOrUpdate w kubeconfigPath chartName releaseName repoURL version values).err
      = some (GoError.other ("failed to load request chart " ++ chartName)) ∧
    installCount
      (InstallOrUpdate w kubeconfigPath chartName releaseName repoURL version values).calls
      = 0 ∧
    upgradeCount
      (InstallOrUpdate w kubeconfigPath chartName releaseName repoURL version values).calls
      = 0 := by
  unfold InstallOrUpdate
  simp only [mkSettings, mkHistoryClient, mkActionConfig, mkUpgradeClient] at *
  simp only [hInit, hHist, hLoc, hMerge, hLoad, if_false]
  simp [installCount, upgradeCount, Call.isInstall, Call.isUpgrade, List.countP_cons,
    List.countP_append]

/-! ## Theorem on `main` -/

/-- C10: the override list that `main` passes to `InstallOrUpdate` is
`main.values` of the flag; it is the list of the comma-separated segments of
the flag, in order (joined with commas they give the flag back, and no segment
holds a comma), each with its leading and trailing white space removed; it has
one element more than the flag has commas, so it is never empty, and for the
empty flag it is the one-element list of the empty string. -/
theorem main_values_split_trim (w : Helm)
    (kubeconfigPath chartName releaseName repoURL version commaValues : String) :
    main w kubeconfigPath chartName releaseName repoURL version commaValues =
      InstallOrUpdate w kubeconfigPath chartName releaseName repoURL version
        (main.values commaValues) ∧
    main.values commaValues = (Split commaValues ',').map TrimSpace ∧
    List.intercalate [','] ((Split commaValues ',').map String.data) = commaValues.data ∧
    (∀ seg ∈ Split commaValues ',', ',' ∉ seg.data) ∧
    (∀ seg : String,
      (∃ l r, seg.data = l ++ (TrimSpace seg).data ++ r ∧ (∀ c ∈ l, IsSpace c = true) ∧
        (∀ c ∈ r, IsSpace c = true)) ∧
      (∀ c, (TrimSpace seg).data.head? = some c → IsSpace c = false) ∧
      (∀ c, (TrimSpace seg).data.getLast? = some c → IsSpace c = false)) ∧
    (main.values commaValues).length = commaValues.data.count ',' + 1 ∧
    main.values commaValues ≠ [] ∧
    main.values "" = [""] ∧
    main.values "a=1, b=2 ,,c" = ["a=1", "b=2", "", "c"] := by
  obtain ⟨h1, h2, h3⟩ := genSplit_spec ',' _ commaValues.data rfl
  have hmap : (Split commaValues ',').map String.data =
      genSplit (commaValues.data.count ',') commaValues.data ',' := by
    simp [Split, Function.comp_def]
  have hlen : (main.values commaValues).length = commaValues.data.count ',' + 1 := by
    simp [main.values, Split, h1]
  refine ⟨rfl, rfl, ?_, ?_, ?_, hlen, ?_, by decide, by decide⟩
  · rw [hmap]; exact h2
  · intro seg hseg
    apply h3
    rw [← hmap]
    exact List.mem_map_of_mem String.data hseg
  · intro seg
    exact trimSpaceChars_spec seg.data
  · intro h
    rw [h] at hlen
    simp at hlen

end HelmSdk
